import Mathlib

/-
  Shallow embedding of the configuration-management-service core:
  the versioning/validation engine (internal/usecase), the domain entities
  (internal/domain/entity/configuration.go), and the SQLite-backed store
  (internal/repository/sqlite/configuration_repository.go).

  Modelling conventions:
  * JSON payloads and schemas are opaque byte strings (String).
  * Timestamps are abstract Nat values; Go calls time.Now() inside the
    entity constructors, which is modelled by an explicit "now" parameter.
  * The SQLite tables are association lists keyed by the SQL primary keys.
  * Go errors are GoError: either a typed AppError from pkg/errors or a
    raw driver/sql error (generic), matching how the repository returns
    either errors.NewNotFoundError or the raw err from database/sql.
  * The gojsonschema library is abstracted by a function
    gjs : schema -> data -> GJSResult, mirroring the only two outcomes the
    Go code inspects (err != nil, result.Valid()/result.Errors()).
-/

namespace ConfigService

/-- Error codes from pkg/errors (the ErrorCode constants). -/
inductive ErrorCode where
  | notFound
  | validationFailed
  | alreadyExists
  | invalidRequest
  | internalError
  | unauthorized
deriving DecidableEq, Repr

/-- A field-level validation error (pkg/errors.ValidationError). -/
structure ValidationError where
  field : String
  reason : String
deriving DecidableEq, Repr

/-- The Details payload of an AppError (interface left open in Go; the code
only ever stores an id map, a validation-error list, or a diagnostic string). -/
inductive ErrorDetails where
  | noDetails
  | idDetail (id : String)
  | validationList (errs : List ValidationError)
  | diagnostic (message : String)
deriving DecidableEq, Repr

/-- pkg/errors.AppError. -/
structure AppError where
  message : String
  code : ErrorCode
  details : ErrorDetails
deriving DecidableEq, Repr

/-- pkg/errors.NewAppError. -/
def NewAppError (message : String) (code : ErrorCode) (details : ErrorDetails) : AppError :=
  { message := message, code := code, details := details }

/-- pkg/errors.NewNotFoundError. -/
def NewNotFoundError (resourceType resourceID : String) : AppError :=
  NewAppError (resourceType ++ " not found") ErrorCode.notFound (ErrorDetails.idDetail resourceID)

/-- pkg/errors.NewAlreadyExistsError. -/
def NewAlreadyExistsError (resourceType resourceID : String) : AppError :=
  NewAppError (resourceType ++ " already exists") ErrorCode.alreadyExists (ErrorDetails.idDetail resourceID)

/-- pkg/errors.NewValidationFailedError. -/
def NewValidationFailedError (message : String) (details : List ValidationError) : AppError :=
  NewAppError message ErrorCode.validationFailed (ErrorDetails.validationList details)

/-- pkg/errors.NewInternalError (the callers always pass err.Error(), a string). -/
def NewInternalError (message : String) (diag : String) : AppError :=
  NewAppError message ErrorCode.internalError (ErrorDetails.diagnostic diag)

/-- pkg/errors.NewInvalidRequestError (the caller passes a formatted string). -/
def NewInvalidRequestError (message : String) (diag : String) : AppError :=
  NewAppError message ErrorCode.invalidRequest (ErrorDetails.diagnostic diag)

/-- A Go error value as the repository produces it: either a typed AppError
(e.g. errors.NewNotFoundError) or a raw database/sql error. -/
inductive GoError where
  | app (e : AppError)
  | generic (msg : String)
deriving DecidableEq, Repr

/-- err.Error() on a GoError. -/
def GoError.message : GoError → String
  | GoError.app e => e.message
  | GoError.generic m => m

instance {ε α : Type} [DecidableEq ε] [DecidableEq α] : DecidableEq (Except ε α) := fun x y =>
  match x, y with
  | Except.ok a, Except.ok b =>
    match decEq a b with
    | isTrue h => isTrue (h ▸ rfl)
    | isFalse h => isFalse (fun hx => h (Except.ok.inj hx))
  | Except.error a, Except.error b =>
    match decEq a b with
    | isTrue h => isTrue (h ▸ rfl)
    | isFalse h => isFalse (fun hx => h (Except.error.inj hx))
  | Except.ok _, Except.error _ => isFalse (fun hx => Except.noConfusion hx)
  | Except.error _, Except.ok _ => isFalse (fun hx => Except.noConfusion hx)

/-- internal/domain/entity.Configuration. The Go struct uses int zero values
for the optional rollback fields; 0 means "absent". -/
structure Configuration where
  name : String
  version : Nat
  data : String
  createdAt : Nat
  updatedAt : Nat
  rollbackFrom : Nat
  rollbackTo : Nat
deriving DecidableEq, Repr

/-- internal/domain/entity.VersionInfo. -/
structure VersionInfo where
  version : Nat
  createdAt : Nat
  isRollback : Bool
deriving DecidableEq, Repr

/-- internal/domain/entity.VersionList. -/
structure VersionList where
  name : String
  versions : List VersionInfo
deriving DecidableEq, Repr

/-- entity.NewConfiguration: version 1, createdAt = updatedAt = now,
rollback fields left at their zero values. -/
def NewConfiguration (name : String) (data : String) (now : Nat) : Configuration :=
  { name := name, version := 1, data := data, createdAt := now, updatedAt := now,
    rollbackFrom := 0, rollbackTo := 0 }

/-- entity.NewVersionFromRollback: bumps the version, copies the target data,
keeps the original creation time, and records the provenance fields. -/
def NewVersionFromRollback (config : Configuration) (targetVersion : Nat)
    (targetData : String) (now : Nat) : Configuration :=
  { name := config.name, version := config.version + 1, data := targetData,
    createdAt := config.createdAt, updatedAt := now,
    rollbackFrom := config.version, rollbackTo := targetVersion }

/-- entity.Configuration.UpdateVersion: bumps the version, replaces the data,
keeps the original creation time; the fresh struct leaves the rollback
fields at their zero values. -/
def Configuration.UpdateVersion (c : Configuration) (data : String) (now : Nat) : Configuration :=
  { name := c.name, version := c.version + 1, data := data,
    createdAt := c.createdAt, updatedAt := now,
    rollbackFrom := 0, rollbackTo := 0 }

/-! Association-list primitives used to model the SQL tables. -/

/-- First-match lookup by key. -/
def alLookup {α β : Type} [DecidableEq α] : List (α × β) → α → Option β
  | [], _ => none
  | (k, v) :: rest, key => if k = key then some v else alLookup rest key

/-- Insert-or-replace by key (the row order of untouched keys is preserved;
a fresh key is appended). -/
def alInsert {α β : Type} [DecidableEq α] : List (α × β) → α → β → List (α × β)
  | [], key, value => [(key, value)]
  | (k, v) :: rest, key, value =>
    if k = key then (key, value) :: rest else (k, v) :: alInsert rest key value

/-- SQL UPDATE ... WHERE key = k: rewrite the matching row in place,
no effect when the key is absent (the keys are primary keys, so at most
one row matches). -/
def alUpdateRow {α β : Type} [DecidableEq α] : List (α × β) → α → (β → β) → List (α × β)
  | [], _, _ => []
  | (k, v) :: rest, key, f =>
    if k = key then (k, f v) :: rest else (k, v) :: alUpdateRow rest key f

namespace Sqlite

/-- A row of the configurations table; rollback_from / rollback_to are
nullable INTEGER columns. -/
structure ConfigRow where
  version : Nat
  createdAt : Nat
  updatedAt : Nat
  rollbackFrom : Option Nat
  rollbackTo : Option Nat
deriving DecidableEq, Repr

/-- A row of the versions table (keyed by (name, version) outside). -/
structure VersionRow where
  createdAt : Nat
  isRollback : Bool
deriving DecidableEq, Repr

/-- The four SQLite tables created by initSchema. -/
structure StoreState where
  configurations : List (String × ConfigRow)
  versions : List ((String × Nat) × VersionRow)
  versionData : List ((String × Nat) × String)
  schemas : List (String × String)
deriving DecidableEq, Repr

/-- The freshly initialised database. -/
def emptyState : StoreState :=
  { configurations := [], versions := [], versionData := [], schemas := [] }

/-- ConfigurationRepository.CreateConfiguration: one transaction inserting
into configurations and versions; a primary-key violation on either insert
aborts the transaction, leaving the state unchanged. The rollback columns
are not in the INSERT column list, so they are NULL. -/
def CreateConfiguration (s : StoreState) (config : Configuration) : Except GoError StoreState :=
  if (alLookup s.configurations config.name).isSome then
    Except.error (GoError.generic "UNIQUE constraint failed: configurations.name")
  else if (alLookup s.versions (config.name, config.version)).isSome then
    Except.error (GoError.generic "UNIQUE constraint failed: versions.name, versions.version")
  else
    Except.ok { s with
      configurations := alInsert s.configurations config.name
        { version := config.version, createdAt := config.createdAt,
          updatedAt := config.updatedAt, rollbackFrom := none, rollbackTo := none },
      versions := alInsert s.versions (config.name, config.version)
        { createdAt := config.createdAt, isRollback := false } }

/-- ConfigurationRepository.UpdateConfiguration: one transaction running
UPDATE on configurations (a no-op when the name is absent: zero rows
affected is not an error) and INSERT into versions (a primary-key
violation aborts the transaction). The UPDATE stores the entity ints
directly, so the rollback columns become non-NULL (possibly 0). -/
def UpdateConfiguration (s : StoreState) (config : Configuration) : Except GoError StoreState :=
  if (alLookup s.versions (config.name, config.version)).isSome then
    Except.error (GoError.generic "UNIQUE constraint failed: versions.name, versions.version")
  else
    Except.ok { s with
      configurations := alUpdateRow s.configurations config.name
        (fun row => { row with version := config.version, updatedAt := config.updatedAt,
                               rollbackFrom := some config.rollbackFrom,
                               rollbackTo := some config.rollbackTo }),
      versions := alInsert s.versions (config.name, config.version)
        { createdAt := config.updatedAt, isRollback := decide (0 < config.rollbackFrom) } }

/-- ConfigurationRepository.GetConfiguration: reads the configurations row
(absence is a typed NotFoundError), maps NULL rollback columns to 0, then
reads the head payload from version_data; absence of that row surfaces as
the raw sql.ErrNoRows, a generic error. -/
def GetConfiguration (s : StoreState) (name : String) : Except GoError Configuration :=
  match alLookup s.configurations name with
  | none => Except.error (GoError.app (NewNotFoundError "Configuration" name))
  | some row =>
    match alLookup s.versionData (name, row.version) with
    | none => Except.error (GoError.generic "sql: no rows in result set")
    | some dataStr =>
      Except.ok { name := name, version := row.version, data := dataStr,
                  createdAt := row.createdAt, updatedAt := row.updatedAt,
                  rollbackFrom := row.rollbackFrom.getD 0, rollbackTo := row.rollbackTo.getD 0 }

/-- ConfigurationRepository.GetConfigurationVersion: EXISTS check on the
versions row (absence is a typed NotFoundError), then the version row, the
payload and the original creation time; a missing payload or configurations
row surfaces as raw sql.ErrNoRows. The rebuilt entity leaves the rollback
fields at their zero values. -/
def GetConfigurationVersion (s : StoreState) (name : String) (version : Nat) :
    Except GoError Configuration :=
  match alLookup s.versions (name, version) with
  | none =>
    Except.error (GoError.app
      (NewNotFoundError "Configuration version" (name ++ ":" ++ toString version)))
  | some vrow =>
    match alLookup s.versionData (name, version) with
    | none => Except.error (GoError.generic "sql: no rows in result set")
    | some dataStr =>
      match alLookup s.configurations name with
      | none => Except.error (GoError.generic "sql: no rows in result set")
      | some crow =>
        Except.ok { name := name, version := version, data := dataStr,
                    createdAt := crow.createdAt, updatedAt := vrow.createdAt,
                    rollbackFrom := 0, rollbackTo := 0 }

/-- Insertion in ascending version order (ORDER BY version). -/
def insertSorted (x : VersionInfo) : List VersionInfo → List VersionInfo
  | [] => [x]
  | y :: ys => if x.version ≤ y.version then x :: y :: ys else y :: insertSorted x ys

/-- ORDER BY version ascending. -/
def sortByVersion : List VersionInfo → List VersionInfo
  | [] => []
  | x :: xs => insertSorted x (sortByVersion xs)

/-- ConfigurationRepository.ListConfigurationVersions: EXISTS check on the
configurations row (absence is a typed NotFoundError), then the versions
rows for the name ordered by version ascending. -/
def ListConfigurationVersions (s : StoreState) (name : String) : Except GoError VersionList :=
  if (alLookup s.configurations name).isSome then
    Except.ok { name := name,
                versions := sortByVersion (s.versions.filterMap (fun p =>
                  if p.1.1 = name then
                    some { version := p.1.2, createdAt := p.2.createdAt,
                           isRollback := p.2.isRollback }
                  else none)) }
  else
    Except.error (GoError.app (NewNotFoundError "Configuration" name))

/-- ConfigurationRepository.RegisterSchema: exists-check then UPDATE or
INSERT, i.e. upsert keyed by name. -/
def RegisterSchema (s : StoreState) (configName schema : String) : Except GoError StoreState :=
  Except.ok { s with schemas := alInsert s.schemas configName schema }

/-- ConfigurationRepository.GetSchema: absence is a typed NotFoundError. -/
def GetSchema (s : StoreState) (configName : String) : Except GoError String :=
  match alLookup s.schemas configName with
  | none => Except.error (GoError.app (NewNotFoundError "Schema" configName))
  | some schemaStr => Except.ok schemaStr

/-- ConfigurationRepository.StoreVersionData: INSERT OR REPLACE. -/
def StoreVersionData (s : StoreState) (configName : String) (version : Nat) (data : String) :
    Except GoError StoreState :=
  Except.ok { s with versionData := alInsert s.versionData (configName, version) data }

/-- ConfigurationRepository.GetVersionData: absence is a typed NotFoundError. -/
def GetVersionData (s : StoreState) (configName : String) (version : Nat) :
    Except GoError String :=
  match alLookup s.versionData (configName, version) with
  | none =>
    Except.error (GoError.app
      (NewNotFoundError "Version data" (configName ++ ":" ++ toString version)))
  | some dataStr => Except.ok dataStr

end Sqlite

open Sqlite in
/-- internal/domain/repository.ConfigurationRepository, the storage interface
the use case is constructed with. Each method is a pure function of the
store state, returning the successor state for writes. -/
structure Repo where
  createConfiguration : StoreState → Configuration → Except GoError StoreState
  updateConfiguration : StoreState → Configuration → Except GoError StoreState
  getConfiguration : StoreState → String → Except GoError Configuration
  getConfigurationVersion : StoreState → String → Nat → Except GoError Configuration
  listConfigurationVersions : StoreState → String → Except GoError VersionList
  registerSchema : StoreState → String → String → Except GoError StoreState
  getSchema : StoreState → String → Except GoError String
  storeVersionData : StoreState → String → Nat → String → Except GoError StoreState
  getVersionData : StoreState → String → Nat → Except GoError String

/-- The SQLite implementation bundled behind the repository interface. -/
def sqliteRepo : Repo :=
  { createConfiguration := Sqlite.CreateConfiguration
    updateConfiguration := Sqlite.UpdateConfiguration
    getConfiguration := Sqlite.GetConfiguration
    getConfigurationVersion := Sqlite.GetConfigurationVersion
    listConfigurationVersions := Sqlite.ListConfigurationVersions
    registerSchema := Sqlite.RegisterSchema
    getSchema := Sqlite.GetSchema
    storeVersionData := Sqlite.StoreVersionData
    getVersionData := Sqlite.GetVersionData }

/-- Outcome of gojsonschema.Validate as the Go code observes it: either a
library-level error (err != nil) or a result whose violation list is empty
exactly when result.Valid() is true. -/
inductive GJSResult where
  | error (message : String)
  | result (violations : List ValidationError)
deriving DecidableEq, Repr

/-- pkg/validator.Validator, the validation interface of the use case. -/
structure Validator where
  validateJSON : String → String → Except AppError Unit
  validateSchemaDefinition : String → Except AppError Unit

/-- JSONSchemaValidator.ValidateJSON over an abstract gojsonschema engine:
a library error becomes InternalError; an invalid result becomes
ValidationFailed carrying one field/reason entry per violation. -/
def JSONSchemaValidateJSON (gjs : String → String → GJSResult) (schema data : String) :
    Except AppError Unit :=
  match gjs schema data with
  | GJSResult.error msg => Except.error (NewInternalError "Failed to validate JSON" msg)
  | GJSResult.result errs =>
    if errs.isEmpty then Except.ok ()
    else Except.error (NewValidationFailedError "JSON validation failed" errs)

/-- JSONSchemaValidator.ValidateSchemaDefinition over an abstract
gojsonschema.NewSchema compiler (some msg is a compile failure). -/
def JSONSchemaValidateSchemaDefinition (compile : String → Option String) (schema : String) :
    Except AppError Unit :=
  match compile schema with
  | some msg =>
    Except.error (NewInvalidRequestError "Invalid JSON Schema" ("Schema validation error: " ++ msg))
  | none => Except.ok ()

/-- validator.NewJSONSchemaValidator wired over the abstract engine. -/
def NewJSONSchemaValidator (gjs : String → String → GJSResult)
    (compile : String → Option String) : Validator :=
  { validateJSON := JSONSchemaValidateJSON gjs
    validateSchemaDefinition := JSONSchemaValidateSchemaDefinition compile }

namespace UseCase

open Sqlite

/-- ConfigurationUseCase.CreateConfiguration. Note that the duplicate check
only fires when the repository lookup succeeds, that a failing GetSchema
(of any kind) silently skips validation, and that the version-1 payload is
stored by a separate repository call after CreateConfiguration returns. -/
def CreateConfiguration (r : Repo) (v : Validator) (s : StoreState)
    (name data : String) (now : Nat) : Except AppError Configuration × StoreState :=
  match r.getConfiguration s name with
  | Except.ok _ => (Except.error (NewAlreadyExistsError "Configuration" name), s)
  | Except.error _ =>
    match (match r.getSchema s name with
           | Except.ok schema => v.validateJSON schema data
           | Except.error _ => Except.ok ()) with
    | Except.error e => (Except.error e, s)
    | Except.ok _ =>
      match r.createConfiguration s (NewConfiguration name data now) with
      | Except.error e =>
        (Except.error (NewInternalError "Failed to create configuration" e.message), s)
      | Except.ok s1 =>
        match r.storeVersionData s1 name (NewConfiguration name data now).version data with
        | Except.error e =>
          (Except.error (NewInternalError "Failed to store version data" e.message), s1)
        | Except.ok s2 => (Except.ok (NewConfiguration name data now), s2)

/-- ConfigurationUseCase.UpdateConfiguration. -/
def UpdateConfiguration (r : Repo) (v : Validator) (s : StoreState)
    (name data : String) (now : Nat) : Except AppError Configuration × StoreState :=
  match r.getConfiguration s name with
  | Except.error _ => (Except.error (NewNotFoundError "Configuration" name), s)
  | Except.ok existingConfig =>
    match (match r.getSchema s name with
           | Except.ok schema => v.validateJSON schema data
           | Except.error _ => Except.ok ()) with
    | Except.error e => (Except.error e, s)
    | Except.ok _ =>
      match r.updateConfiguration s (existingConfig.UpdateVersion data now) with
      | Except.error e =>
        (Except.error (NewInternalError "Failed to update configuration" e.message), s)
      | Except.ok s1 =>
        match r.storeVersionData s1 name (existingConfig.UpdateVersion data now).version data with
        | Except.error e =>
          (Except.error (NewInternalError "Failed to store version data" e.message), s1)
        | Except.ok s2 => (Except.ok (existingConfig.UpdateVersion data now), s2)

/-- ConfigurationUseCase.GetConfiguration: any repository failure is
rewrapped as a NotFoundError. -/
def GetConfiguration (r : Repo) (s : StoreState) (name : String) :
    Except AppError Configuration :=
  match r.getConfiguration s name with
  | Except.error _ => Except.error (NewNotFoundError "Configuration" name)
  | Except.ok config => Except.ok config

/-- ConfigurationUseCase.GetConfigurationVersion: any repository failure is
rewrapped as a NotFoundError (whose id is just the name). -/
def GetConfigurationVersion (r : Repo) (s : StoreState) (name : String) (version : Nat) :
    Except AppError Configuration :=
  match r.getConfigurationVersion s name version with
  | Except.error _ => Except.error (NewNotFoundError "Configuration version" name)
  | Except.ok config => Except.ok config

/-- ConfigurationUseCase.ListConfigurationVersions. -/
def ListConfigurationVersions (r : Repo) (s : StoreState) (name : String) :
    Except AppError VersionList :=
  match r.getConfiguration s name with
  | Except.error _ => Except.error (NewNotFoundError "Configuration" name)
  | Except.ok _ =>
    match r.listConfigurationVersions s name with
    | Except.error e =>
      Except.error (NewInternalError "Failed to list configuration versions" e.message)
    | Except.ok versions => Except.ok versions

/-- ConfigurationUseCase.RollbackConfiguration: existence of the target is
checked through GetVersionData; no schema validation is involved. -/
def RollbackConfiguration (r : Repo) (s : StoreState) (name : String)
    (targetVersion : Nat) (now : Nat) : Except AppError Configuration × StoreState :=
  match r.getConfiguration s name with
  | Except.error _ => (Except.error (NewNotFoundError "Configuration" name), s)
  | Except.ok currentConfig =>
    match r.getVersionData s name targetVersion with
    | Except.error _ => (Except.error (NewNotFoundError "Configuration version" name), s)
    | Except.ok targetData =>
      match r.updateConfiguration s
        (NewVersionFromRollback currentConfig targetVersion targetData now) with
      | Except.error e =>
        (Except.error (NewInternalError "Failed to rollback configuration" e.message), s)
      | Except.ok s1 =>
        match r.storeVersionData s1 name
          (NewVersionFromRollback currentConfig targetVersion targetData now).version
          targetData with
        | Except.error e =>
          (Except.error (NewInternalError "Failed to store version data" e.message), s1)
        | Except.ok s2 =>
          (Except.ok (NewVersionFromRollback currentConfig targetVersion targetData now), s2)

/-- ConfigurationUseCase.RegisterSchema. -/
def RegisterSchema (r : Repo) (v : Validator) (s : StoreState)
    (configName schema : String) : Except AppError Unit × StoreState :=
  match v.validateSchemaDefinition schema with
  | Except.error e => (Except.error e, s)
  | Except.ok _ =>
    match r.registerSchema s configName schema with
    | Except.error e => (Except.error (NewInternalError "Failed to register schema" e.message), s)
    | Except.ok s1 => (Except.ok (), s1)

/-- ConfigurationUseCase.GetSchema: any repository failure is rewrapped as a
NotFoundError. -/
def GetSchema (r : Repo) (s : StoreState) (configName : String) :
    Except AppError String :=
  match r.getSchema s configName with
  | Except.error _ => Except.error (NewNotFoundError "Schema" configName)
  | Except.ok schema => Except.ok schema

/-- ConfigurationUseCase.ValidateConfigurationData. -/
def ValidateConfigurationData (r : Repo) (v : Validator) (s : StoreState)
    (configName data : String) : Except AppError Unit :=
  match r.getSchema s configName with
  | Except.error _ => Except.error (NewNotFoundError "Schema" configName)
  | Except.ok schema => v.validateJSON schema data

end UseCase

/-! Lemmas about the association-list primitives. -/

theorem alLookup_alInsert_self {α β : Type} [DecidableEq α] (l : List (α × β)) (k : α) (v : β) :
    alLookup (alInsert l k v) k = some v := by
  induction l with
  | nil => simp [alInsert, alLookup]
  | cons p rest ih =>
    obtain ⟨a, b⟩ := p
    by_cases h : a = k
    · simp [alInsert, alLookup, h]
    · simp [alInsert, alLookup, h, ih]

theorem alLookup_alInsert_ne {α β : Type} [DecidableEq α] (l : List (α × β)) (k key : α)
    (v : β) (h : key ≠ k) : alLookup (alInsert l k v) key = alLookup l key := by
  induction l with
  | nil => simp [alInsert, alLookup, Ne.symm h]
  | cons p rest ih =>
    obtain ⟨a, b⟩ := p
    by_cases ha : a = k
    · subst ha
      simp [alInsert, alLookup, Ne.symm h]
    · simp only [alInsert, if_neg ha, alLookup]
      by_cases hk : a = key
      · simp [hk]
      · simp [hk, ih]

theorem alLookup_alUpdateRow_self {α β : Type} [DecidableEq α] (l : List (α × β)) (k : α)
    (f : β → β) : alLookup (alUpdateRow l k f) k = (alLookup l k).map f := by
  induction l with
  | nil => simp [alUpdateRow, alLookup]
  | cons p rest ih =>
    obtain ⟨a, b⟩ := p
    by_cases h : a = k
    · subst h
      simp [alUpdateRow, alLookup]
    · simp [alUpdateRow, alLookup, h, ih]

theorem alLookup_alUpdateRow_ne {α β : Type} [DecidableEq α] (l : List (α × β)) (k key : α)
    (f : β → β) (h : key ≠ k) : alLookup (alUpdateRow l k f) key = alLookup l key := by
  induction l with
  | nil => simp [alUpdateRow, alLookup]
  | cons p rest ih =>
    obtain ⟨a, b⟩ := p
    by_cases ha : a = k
    · subst ha
      simp [alUpdateRow, alLookup, Ne.symm h]
    · simp only [alUpdateRow, if_neg ha, alLookup]
      by_cases hk : a = key
      · simp [hk]
      · simp [hk, ih]

theorem alInsert_fresh {α β : Type} [DecidableEq α] (l : List (α × β)) (k : α) (v : β)
    (h : alLookup l k = none) : alInsert l k v = l ++ [(k, v)] := by
  induction l with
  | nil => simp [alInsert]
  | cons p rest ih =>
    obtain ⟨a, b⟩ := p
    simp only [alLookup] at h
    by_cases ha : a = k
    · simp [ha] at h
    · simp only [alInsert, if_neg ha, List.cons_append, List.cons.injEq, true_and]
      exact ih (by simpa [ha] using h)

theorem insertSorted_length (x : VersionInfo) (l : List VersionInfo) :
    (Sqlite.insertSorted x l).length = l.length + 1 := by
  induction l with
  | nil => simp [Sqlite.insertSorted]
  | cons y ys ih =>
    by_cases h : x.version ≤ y.version
    · simp [Sqlite.insertSorted, h]
    · simp [Sqlite.insertSorted, h, ih]

theorem sortByVersion_length (l : List VersionInfo) :
    (Sqlite.sortByVersion l).length = l.length := by
  induction l with
  | nil => simp [Sqlite.sortByVersion]
  | cons x xs ih => simp [Sqlite.sortByVersion, insertSorted_length, ih]

/-! Characterizations of the SQLite repository operations. -/

theorem createRepo_ok_iff (s : Sqlite.StoreState) (config : Configuration)
    (s' : Sqlite.StoreState) :
    Sqlite.CreateConfiguration s config = Except.ok s' ↔
      alLookup s.configurations config.name = none ∧
      alLookup s.versions (config.name, config.version) = none ∧
      s' = { s with
             configurations := alInsert s.configurations config.name
               { version := config.version, createdAt := config.createdAt,
                 updatedAt := config.updatedAt, rollbackFrom := none, rollbackTo := none },
             versions := alInsert s.versions (config.name, config.version)
               { createdAt := config.createdAt, isRollback := false } } := by
  unfold Sqlite.CreateConfiguration
  split_ifs with h1 h2
  · constructor
    · intro h
      exact absurd h (by simp)
    · rintro ⟨hnone, -, -⟩
      rw [hnone] at h1
      simp at h1
  · constructor
    · intro h
      exact absurd h (by simp)
    · rintro ⟨-, hnone, -⟩
      rw [hnone] at h2
      simp at h2
  · rw [Option.not_isSome_iff_eq_none] at h1 h2
    simp [h1, h2, eq_comm]

theorem updateRepo_ok_iff (s : Sqlite.StoreState) (config : Configuration)
    (s' : Sqlite.StoreState) :
    Sqlite.UpdateConfiguration s config = Except.ok s' ↔
      alLookup s.versions (config.name, config.version) = none ∧
      s' = { s with
             configurations := alUpdateRow s.configurations config.name
               (fun row => { row with version := config.version, updatedAt := config.updatedAt,
                                      rollbackFrom := some config.rollbackFrom,
                                      rollbackTo := some config.rollbackTo }),
             versions := alInsert s.versions (config.name, config.version)
               { createdAt := config.updatedAt,
                 isRollback := decide (0 < config.rollbackFrom) } } := by
  unfold Sqlite.UpdateConfiguration
  split_ifs with h1
  · constructor
    · intro h
      exact absurd h (by simp)
    · rintro ⟨hnone, -⟩
      rw [hnone] at h1
      simp at h1
  · rw [Option.not_isSome_iff_eq_none] at h1
    simp [h1, eq_comm]

theorem getRepo_ok_iff (s : Sqlite.StoreState) (name : String) (c : Configuration) :
    Sqlite.GetConfiguration s name = Except.ok c ↔
      ∃ row dataStr, alLookup s.configurations name = some row ∧
        alLookup s.versionData (name, row.version) = some dataStr ∧
        c = { name := name, version := row.version, data := dataStr,
              createdAt := row.createdAt, updatedAt := row.updatedAt,
              rollbackFrom := row.rollbackFrom.getD 0,
              rollbackTo := row.rollbackTo.getD 0 } := by
  unfold Sqlite.GetConfiguration
  rcases hrow : alLookup s.configurations name with - | row
  · simp [hrow]
  · rcases hd : alLookup s.versionData (name, row.version) with - | dataStr
    · simp [hrow, hd]
    · simp [hrow, hd, eq_comm]

theorem sqliteRepo_createConfiguration :
    sqliteRepo.createConfiguration = Sqlite.CreateConfiguration := rfl

theorem sqliteRepo_updateConfiguration :
    sqliteRepo.updateConfiguration = Sqlite.UpdateConfiguration := rfl

theorem sqliteRepo_getConfiguration :
    sqliteRepo.getConfiguration = Sqlite.GetConfiguration := rfl

theorem sqliteRepo_getSchema : sqliteRepo.getSchema = Sqlite.GetSchema := rfl

theorem sqliteRepo_storeVersionData :
    sqliteRepo.storeVersionData = Sqlite.StoreVersionData := rfl

theorem sqliteRepo_getVersionData :
    sqliteRepo.getVersionData = Sqlite.GetVersionData := rfl

theorem sqliteRepo_listConfigurationVersions :
    sqliteRepo.listConfigurationVersions = Sqlite.ListConfigurationVersions := rfl

theorem sqliteRepo_getConfigurationVersion :
    sqliteRepo.getConfigurationVersion = Sqlite.GetConfigurationVersion := rfl

theorem sqliteRepo_registerSchema :
    sqliteRepo.registerSchema = Sqlite.RegisterSchema := rfl

theorem getVersionDataRepo_ok_iff (s : Sqlite.StoreState) (name : String) (version : Nat)
    (d : String) :
    Sqlite.GetVersionData s name version = Except.ok d ↔
      alLookup s.versionData (name, version) = some d := by
  unfold Sqlite.GetVersionData
  rcases hd : alLookup s.versionData (name, version) with - | dataStr
  · simp
  · simp [eq_comm]

/-! Success-shape lemmas for the use-case operations against the SQLite
repository: a successful call pins down the produced entity, the branch
conditions taken, and the successor state. -/

theorem create_ok_shape (v : Validator) (s : Sqlite.StoreState) (name data : String)
    (now : Nat) (c : Configuration) (s' : Sqlite.StoreState)
    (h : UseCase.CreateConfiguration sqliteRepo v s name data now = (Except.ok c, s')) :
    c = NewConfiguration name data now ∧
    alLookup s.configurations name = none ∧
    alLookup s.versions (name, 1) = none ∧
    s' = { s with
           configurations := alInsert s.configurations name
             { version := 1, createdAt := now, updatedAt := now,
               rollbackFrom := none, rollbackTo := none },
           versions := alInsert s.versions (name, 1) { createdAt := now, isRollback := false },
           versionData := alInsert s.versionData (name, 1) data } := by
  unfold UseCase.CreateConfiguration at h
  rw [sqliteRepo_getConfiguration, sqliteRepo_getSchema, sqliteRepo_createConfiguration,
    sqliteRepo_storeVersionData] at h
  split at h
  · simp at h
  · split at h
    · simp at h
    · split at h
      · simp at h
      · rename_i s1 hcreate
        rw [createRepo_ok_iff] at hcreate
        obtain ⟨hconf, hver, hs1⟩ := hcreate
        simp only [NewConfiguration] at hconf hver hs1 ⊢
        simp only [Sqlite.StoreVersionData, Prod.mk.injEq, Except.ok.injEq] at h
        obtain ⟨hc, hs⟩ := h
        subst hs1
        exact ⟨hc.symm, hconf, hver, hs.symm⟩

theorem update_ok_shape (v : Validator) (s : Sqlite.StoreState) (name data : String)
    (now : Nat) (c : Configuration) (s' : Sqlite.StoreState)
    (h : UseCase.UpdateConfiguration sqliteRepo v s name data now = (Except.ok c, s')) :
    ∃ row dataOld,
      alLookup s.configurations name = some row ∧
      alLookup s.versionData (name, row.version) = some dataOld ∧
      alLookup s.versions (name, row.version + 1) = none ∧
      c = { name := name, version := row.version + 1, data := data,
            createdAt := row.createdAt, updatedAt := now,
            rollbackFrom := 0, rollbackTo := 0 } ∧
      s' = { s with
             configurations := alUpdateRow s.configurations name
               (fun r => { r with version := row.version + 1, updatedAt := now,
                                  rollbackFrom := some 0, rollbackTo := some 0 }),
             versions := alInsert s.versions (name, row.version + 1)
               { createdAt := now, isRollback := false },
             versionData := alInsert s.versionData (name, row.version + 1) data } := by
  unfold UseCase.UpdateConfiguration at h
  rw [sqliteRepo_getConfiguration, sqliteRepo_getSchema, sqliteRepo_updateConfiguration,
    sqliteRepo_storeVersionData] at h
  split at h
  · simp at h
  · rename_i existingConfig hget
    rw [getRepo_ok_iff] at hget
    obtain ⟨row, dataOld, hrow, hdata, hcfg⟩ := hget
    subst hcfg
    split at h
    · simp at h
    · split at h
      · simp at h
      · rename_i s1 hupd
        rw [updateRepo_ok_iff] at hupd
        simp only [Configuration.UpdateVersion] at hupd h
        obtain ⟨hfresh, hs1⟩ := hupd
        subst hs1
        simp only [Sqlite.StoreVersionData, Prod.mk.injEq, Except.ok.injEq] at h
        obtain ⟨hc, hs⟩ := h
        refine ⟨row, dataOld, hrow, hdata, hfresh, hc.symm, ?_⟩
        rw [← hs]
        simp

theorem rollback_ok_shape (s : Sqlite.StoreState) (name : String) (target now : Nat)
    (c : Configuration) (s' : Sqlite.StoreState)
    (h : UseCase.RollbackConfiguration sqliteRepo s name target now = (Except.ok c, s')) :
    ∃ row dataHead targetData,
      alLookup s.configurations name = some row ∧
      alLookup s.versionData (name, row.version) = some dataHead ∧
      alLookup s.versionData (name, target) = some targetData ∧
      alLookup s.versions (name, row.version + 1) = none ∧
      c = { name := name, version := row.version + 1, data := targetData,
            createdAt := row.createdAt, updatedAt := now,
            rollbackFrom := row.version, rollbackTo := target } ∧
      s' = { s with
             configurations := alUpdateRow s.configurations name
               (fun r => { r with version := row.version + 1, updatedAt := now,
                                  rollbackFrom := some row.version,
                                  rollbackTo := some target }),
             versions := alInsert s.versions (name, row.version + 1)
               { createdAt := now, isRollback := decide (0 < row.version) },
             versionData := alInsert s.versionData (name, row.version + 1) targetData } := by
  unfold UseCase.RollbackConfiguration at h
  rw [sqliteRepo_getConfiguration, sqliteRepo_getVersionData, sqliteRepo_updateConfiguration,
    sqliteRepo_storeVersionData] at h
  split at h
  · simp at h
  · rename_i currentConfig hget
    rw [getRepo_ok_iff] at hget
    obtain ⟨row, dataHead, hrow, hdata, hcfg⟩ := hget
    subst hcfg
    split at h
    · simp at h
    · rename_i targetData htarget
      rw [getVersionDataRepo_ok_iff] at htarget
      split at h
      · simp at h
      · rename_i s1 hupd
        rw [updateRepo_ok_iff] at hupd
        simp only [NewVersionFromRollback] at hupd h
        obtain ⟨hfresh, hs1⟩ := hupd
        subst hs1
        simp only [Sqlite.StoreVersionData, Prod.mk.injEq, Except.ok.injEq] at h
        obtain ⟨hc, hs⟩ := h
        refine ⟨row, dataHead, targetData, hrow, hdata, htarget, hfresh, hc.symm, ?_⟩
        rw [← hs]

theorem registerSchema_ok_shape (v : Validator) (s : Sqlite.StoreState)
    (configName schema : String) (u : Unit) (s' : Sqlite.StoreState)
    (h : UseCase.RegisterSchema sqliteRepo v s configName schema = (Except.ok u, s')) :
    s' = { s with schemas := alInsert s.schemas configName schema } := by
  unfold UseCase.RegisterSchema at h
  rw [sqliteRepo_registerSchema] at h
  split at h
  · simp at h
  · simp only [Sqlite.RegisterSchema, Prod.mk.injEq, Except.ok.injEq] at h
    exact h.2.symm

/-! Reachability and the store invariants. -/

/-- States of the SQLite store reachable from a fresh database by successful
use-case write operations (Create, Update, Rollback, RegisterSchema), under
any validator behaviour. -/
inductive Reachable : Sqlite.StoreState → Prop where
  | empty : Reachable Sqlite.emptyState
  | create (s : Sqlite.StoreState) (v : Validator) (name data : String) (now : Nat)
      (c : Configuration) (s' : Sqlite.StoreState) : Reachable s →
      UseCase.CreateConfiguration sqliteRepo v s name data now = (Except.ok c, s') →
      Reachable s'
  | update (s : Sqlite.StoreState) (v : Validator) (name data : String) (now : Nat)
      (c : Configuration) (s' : Sqlite.StoreState) : Reachable s →
      UseCase.UpdateConfiguration sqliteRepo v s name data now = (Except.ok c, s') →
      Reachable s'
  | rollback (s : Sqlite.StoreState) (name : String) (target now : Nat)
      (c : Configuration) (s' : Sqlite.StoreState) : Reachable s →
      UseCase.RollbackConfiguration sqliteRepo s name target now = (Except.ok c, s') →
      Reachable s'
  | registerSchema (s : Sqlite.StoreState) (v : Validator) (configName schema : String)
      (u : Unit) (s' : Sqlite.StoreState) : Reachable s →
      UseCase.RegisterSchema sqliteRepo v s configName schema = (Except.ok u, s') →
      Reachable s'

/-- The head stored in a configurations row is at least 1 and the versions
rows for that name are exactly the contiguous range 1..head. -/
def HeadInvariant (s : Sqlite.StoreState) : Prop :=
  ∀ name row, alLookup s.configurations name = some row →
    1 ≤ row.version ∧
    ∀ n, (alLookup s.versions (name, n)).isSome ↔ (1 ≤ n ∧ n ≤ row.version)

/-- A name without a configurations row has no versions rows. -/
def OrphanFree (s : Sqlite.StoreState) : Prop :=
  ∀ name n, alLookup s.configurations name = none → alLookup s.versions (name, n) = none

/-- A versions row exists exactly when its version_data payload does. -/
def PayloadComplete (s : Sqlite.StoreState) : Prop :=
  ∀ name n, (alLookup s.versions (name, n)).isSome ↔ (alLookup s.versionData (name, n)).isSome

/-- The conjunction of the store invariants preserved by successful operations. -/
def StateInv (s : Sqlite.StoreState) : Prop :=
  HeadInvariant s ∧ OrphanFree s ∧ PayloadComplete s

theorem stateInv_empty : StateInv Sqlite.emptyState := by
  refine ⟨?_, ?_, ?_⟩
  · intro name row h
    simp [Sqlite.emptyState, alLookup] at h
  · intro name n _
    simp [Sqlite.emptyState, alLookup]
  · intro name n
    simp [Sqlite.emptyState, alLookup]

/-- Invariant preservation for the common shape of Update and Rollback: the
configurations row for the name is rewritten to head+1 and a versions row and
payload are inserted at head+1. -/
theorem stateInv_bump (s : Sqlite.StoreState) (name : String) (row : Sqlite.ConfigRow)
    (hrow : alLookup s.configurations name = some row)
    (inv : StateInv s) (f : Sqlite.ConfigRow → Sqlite.ConfigRow)
    (hfv : (f row).version = row.version + 1)
    (vrow : Sqlite.VersionRow) (d : String) :
    StateInv { s with
               configurations := alUpdateRow s.configurations name f,
               versions := alInsert s.versions (name, row.version + 1) vrow,
               versionData := alInsert s.versionData (name, row.version + 1) d } := by
  obtain ⟨hHead, hOrphan, hPayload⟩ := inv
  refine ⟨?_, ?_, ?_⟩
  · intro name' row' h
    by_cases hn : name' = name
    · subst hn
      rw [alLookup_alUpdateRow_self, hrow] at h
      simp only [Option.map_some', Option.some.injEq] at h
      subst h
      rw [hfv]
      constructor
      · omega
      · intro n
        by_cases hv : n = row.version + 1
        · subst hv
          simp [alLookup_alInsert_self]
        · rw [alLookup_alInsert_ne _ _ _ _ (by simp [hv])]
          rw [(hHead name' row hrow).2 n]
          omega
    · rw [alLookup_alUpdateRow_ne _ _ _ _ hn] at h
      refine ⟨(hHead name' row' h).1, ?_⟩
      intro n
      rw [alLookup_alInsert_ne _ _ _ _ (by simp [hn])]
      exact (hHead name' row' h).2 n
  · intro name' n h
    by_cases hn : name' = name
    · subst hn
      rw [alLookup_alUpdateRow_self, hrow] at h
      simp at h
    · rw [alLookup_alUpdateRow_ne _ _ _ _ hn] at h
      rw [alLookup_alInsert_ne _ _ _ _ (by simp [hn])]
      exact hOrphan name' n h
  · intro name' n
    by_cases hk : (name', n) = (name, row.version + 1)
    · rw [hk]
      simp [alLookup_alInsert_self]
    · rw [alLookup_alInsert_ne _ _ _ _ hk, alLookup_alInsert_ne _ _ _ _ hk]
      exact hPayload name' n

theorem stateInv_create_step (s : Sqlite.StoreState) (name data : String) (now : Nat)
    (hconf : alLookup s.configurations name = none) (inv : StateInv s) :
    StateInv { s with
               configurations := alInsert s.configurations name
                 { version := 1, createdAt := now, updatedAt := now,
                   rollbackFrom := none, rollbackTo := none },
               versions := alInsert s.versions (name, 1)
                 { createdAt := now, isRollback := false },
               versionData := alInsert s.versionData (name, 1) data } := by
  obtain ⟨hHead, hOrphan, hPayload⟩ := inv
  refine ⟨?_, ?_, ?_⟩
  · intro name' row' h
    by_cases hn : name' = name
    · subst hn
      rw [alLookup_alInsert_self] at h
      simp only [Option.some.injEq] at h
      subst h
      refine ⟨le_refl 1, ?_⟩
      intro n
      by_cases hv : n = 1
      · subst hv
        simp [alLookup_alInsert_self]
      · rw [alLookup_alInsert_ne _ _ _ _ (by simp [hv])]
        rw [hOrphan name' n hconf]
        simp
        omega
    · rw [alLookup_alInsert_ne _ _ _ _ hn] at h
      refine ⟨(hHead name' row' h).1, ?_⟩
      intro n
      rw [alLookup_alInsert_ne _ _ _ _ (by simp [hn])]
      exact (hHead name' row' h).2 n
  · intro name' n h
    by_cases hn : name' = name
    · subst hn
      rw [alLookup_alInsert_self] at h
      simp at h
    · rw [alLookup_alInsert_ne _ _ _ _ hn] at h
      rw [alLookup_alInsert_ne _ _ _ _ (by simp [hn])]
      exact hOrphan name' n h
  · intro name' n
    by_cases hk : (name', n) = (name, 1)
    · rw [hk]
      simp [alLookup_alInsert_self]
    · rw [alLookup_alInsert_ne _ _ _ _ hk, alLookup_alInsert_ne _ _ _ _ hk]
      exact hPayload name' n

/-- Every reachable store state satisfies the invariants. -/
theorem reachable_inv (s : Sqlite.StoreState) (h : Reachable s) : StateInv s := by
  induction h with
  | empty => exact stateInv_empty
  | create s v name data now c s' _ hop ih =>
    obtain ⟨-, hconf, -, hs'⟩ := create_ok_shape v s name data now c s' hop
    rw [hs']
    exact stateInv_create_step s name data now hconf ih
  | update s v name data now c s' _ hop ih =>
    obtain ⟨row, dataOld, hrow, -, -, -, hs'⟩ := update_ok_shape v s name data now c s' hop
    rw [hs']
    exact stateInv_bump s name row hrow ih _ rfl _ data
  | rollback s name target now c s' _ hop ih =>
    obtain ⟨row, dataHead, targetData, hrow, -, -, -, -, hs'⟩ :=
      rollback_ok_shape s name target now c s' hop
    rw [hs']
    exact stateInv_bump s name row hrow ih _ rfl _ targetData
  | registerSchema s v configName schema u s' _ hop ih =>
    rw [registerSchema_ok_shape v s configName schema u s' hop]
    exact ih

/-! The claim theorems. -/

/-- Claim C5: in every state reachable by successful Create/Update/Rollback
operations (RegisterSchema steps are also allowed, which only strengthens the
statement), every configuration row's stored head equals the maximum version
number among its version records, and those records are exactly the
contiguous range 1..head with no gaps and no reuse (HeadInvariant). -/
theorem c5_head_invariant (s : Sqlite.StoreState) (h : Reachable s) : HeadInvariant s :=
  (reachable_inv s h).1

/-- Claim C9: a successful Create yields version 1 with createdAt equal to
updatedAt, and a subsequent GetVersion(name, 1) reproduces the configuration
with exactly the created data (byte-for-byte round trip). -/
theorem c9_create_round_trip (v : Validator) (s : Sqlite.StoreState) (name data : String)
    (now : Nat) (c : Configuration) (s' : Sqlite.StoreState)
    (h : UseCase.CreateConfiguration sqliteRepo v s name data now = (Except.ok c, s')) :
    c.version = 1 ∧ c.createdAt = c.updatedAt ∧
    UseCase.GetConfigurationVersion sqliteRepo s' name 1 =
      Except.ok { name := name, version := 1, data := data, createdAt := now,
                  updatedAt := now, rollbackFrom := 0, rollbackTo := 0 } := by
  obtain ⟨hc, hconf, hver, hs'⟩ := create_ok_shape v s name data now c s' h
  subst hc
  subst hs'
  refine ⟨rfl, rfl, ?_⟩
  unfold UseCase.GetConfigurationVersion
  rw [sqliteRepo_getConfigurationVersion]
  simp [Sqlite.GetConfigurationVersion, alLookup_alInsert_self]

/-- Claim C3: a successful Rollback(name, targetVersion) on a reachable state
whose head row is row produces version head+1, copies the stored target
payload byte-for-byte, records rollbackFrom = head and rollbackTo = target,
and marks the new version record isRollback = true. -/
theorem c3_rollback_result (s : Sqlite.StoreState) (hreach : Reachable s) (name : String)
    (target now : Nat) (row : Sqlite.ConfigRow)
    (hrow : alLookup s.configurations name = some row)
    (c : Configuration) (s' : Sqlite.StoreState)
    (h : UseCase.RollbackConfiguration sqliteRepo s name target now = (Except.ok c, s')) :
    c.version = row.version + 1 ∧
    (∀ payload, alLookup s.versionData (name, target) = some payload → c.data = payload) ∧
    c.rollbackFrom = row.version ∧
    c.rollbackTo = target ∧
    alLookup s'.versions (name, row.version + 1) =
      some { createdAt := now, isRollback := true } := by
  obtain ⟨row0, dataHead, targetData, hrow0, hdata, htarget, hfresh, hc, hs'⟩ :=
    rollback_ok_shape s name target now c s' h
  rw [hrow] at hrow0
  obtain rfl : row = row0 := by
    simpa using hrow0
  subst hc
  subst hs'
  have hpos : 1 ≤ row.version := ((reachable_inv s hreach).1 name row hrow).1
  refine ⟨rfl, ?_, rfl, rfl, ?_⟩
  · intro payload hp
    rw [htarget] at hp
    simpa using hp
  · simp only [alLookup_alInsert_self]
    have : decide (0 < row.version) = true := by simpa using hpos
    rw [this]

/-- GetConfigurationVersion depends only on the versions row, the payload and
the configurations row's creation time for the queried key. -/
theorem getVersionRepo_congr (s s' : Sqlite.StoreState) (name : String) (m : Nat)
    (hv : alLookup s'.versions (name, m) = alLookup s.versions (name, m))
    (hd : alLookup s'.versionData (name, m) = alLookup s.versionData (name, m))
    (hc : (alLookup s'.configurations name).map (fun r => r.createdAt) =
          (alLookup s.configurations name).map (fun r => r.createdAt)) :
    Sqlite.GetConfigurationVersion s' name m = Sqlite.GetConfigurationVersion s name m := by
  unfold Sqlite.GetConfigurationVersion
  rw [hv, hd]
  rcases h1 : alLookup s.versions (name, m) with - | vrow
  · rfl
  · rcases h2 : alLookup s.versionData (name, m) with - | dataStr
    · rfl
    · rcases h3 : alLookup s.configurations name with - | crow
      · rcases h4 : alLookup s'.configurations name with - | crow'
        · rfl
        · rw [h3, h4] at hc
          simp at hc
      · rcases h4 : alLookup s'.configurations name with - | crow'
        · rw [h3, h4] at hc
          simp at hc
        · rw [h3, h4] at hc
          simp only [Option.map_some', Option.some.injEq] at hc
          simp [hc]

/-- Claim C6: a successful Update on a configuration at head N produces
version N+1 with the original creation time, ListVersions grows by exactly
one entry, and for every version m up to N both the repository-level and the
use-case-level GetVersion results are unchanged (in particular the stored
data of every old version is untouched). -/
theorem c6_update_result (v : Validator) (s : Sqlite.StoreState) (name data : String)
    (now : Nat) (c : Configuration) (s' : Sqlite.StoreState) (row : Sqlite.ConfigRow)
    (hrow : alLookup s.configurations name = some row)
    (h : UseCase.UpdateConfiguration sqliteRepo v s name data now = (Except.ok c, s')) :
    c.version = row.version + 1 ∧
    c.createdAt = row.createdAt ∧
    (∃ l l', UseCase.ListConfigurationVersions sqliteRepo s name = Except.ok l ∧
             UseCase.ListConfigurationVersions sqliteRepo s' name = Except.ok l' ∧
             l'.versions.length = l.versions.length + 1) ∧
    (∀ m, m ≤ row.version →
      UseCase.GetConfigurationVersion sqliteRepo s' name m =
        UseCase.GetConfigurationVersion sqliteRepo s name m) := by
  obtain ⟨row0, dataOld, hrow0, hdata, hfresh, hc, hs'⟩ :=
    update_ok_shape v s name data now c s' h
  rw [hrow] at hrow0
  obtain rfl : row = row0 := by
    simpa using hrow0
  subst hc
  have hs'conf : alLookup s'.configurations name =
      some { row with version := row.version + 1, updatedAt := now,
                      rollbackFrom := some 0, rollbackTo := some 0 } := by
    rw [hs']
    simp only [alLookup_alUpdateRow_self, hrow, Option.map_some']
  refine ⟨rfl, rfl, ?_, ?_⟩
  · have hget : Sqlite.GetConfiguration s name = Except.ok
        { name := name, version := row.version, data := dataOld,
          createdAt := row.createdAt, updatedAt := row.updatedAt,
          rollbackFrom := row.rollbackFrom.getD 0, rollbackTo := row.rollbackTo.getD 0 } := by
      simp [Sqlite.GetConfiguration, hrow, hdata]
    have hget' : Sqlite.GetConfiguration s' name = Except.ok
        { name := name, version := row.version + 1, data := data,
          createdAt := row.createdAt, updatedAt := now,
          rollbackFrom := 0, rollbackTo := 0 } := by
      rw [hs']
      simp [Sqlite.GetConfiguration, alLookup_alUpdateRow_self, hrow, alLookup_alInsert_self]
    have hlist : UseCase.ListConfigurationVersions sqliteRepo s name = Except.ok
        { name := name,
          versions := Sqlite.sortByVersion (s.versions.filterMap (fun p =>
            if p.1.1 = name then
              some { version := p.1.2, createdAt := p.2.createdAt,
                     isRollback := p.2.isRollback }
            else none)) } := by
      unfold UseCase.ListConfigurationVersions
      rw [sqliteRepo_getConfiguration, sqliteRepo_listConfigurationVersions, hget]
      simp only [Sqlite.ListConfigurationVersions, hrow, Option.isSome_some, if_pos]
    have hlist' : UseCase.ListConfigurationVersions sqliteRepo s' name = Except.ok
        { name := name,
          versions := Sqlite.sortByVersion (s'.versions.filterMap (fun p =>
            if p.1.1 = name then
              some { version := p.1.2, createdAt := p.2.createdAt,
                     isRollback := p.2.isRollback }
            else none)) } := by
      unfold UseCase.ListConfigurationVersions
      rw [sqliteRepo_getConfiguration, sqliteRepo_listConfigurationVersions, hget']
      simp only [Sqlite.ListConfigurationVersions, hs'conf, Option.isSome_some, if_pos]
    refine ⟨_, _, hlist, hlist', ?_⟩
    simp only [hs']
    rw [alInsert_fresh _ _ _ hfresh, List.filterMap_append]
    simp [sortByVersion_length, List.filterMap]
  · intro m hm
    have hrepo : Sqlite.GetConfigurationVersion s' name m =
        Sqlite.GetConfigurationVersion s name m := by
      have hne : ((name, m) : String × Nat) ≠ (name, row.version + 1) := by
        simp
        omega
      refine getVersionRepo_congr s s' name m ?_ ?_ ?_
      · rw [hs']
        simp only
        rw [alLookup_alInsert_ne _ _ _ _ hne]
      · rw [hs']
        simp only
        rw [alLookup_alInsert_ne _ _ _ _ hne]
      · rw [hs'conf, hrow]
        simp
    unfold UseCase.GetConfigurationVersion
    rw [sqliteRepo_getConfigurationVersion, hrepo]

/-- Claim C10: a successful Update produces a head with both provenance
fields zero, regardless of the pre-update head, and a subsequent Get returns
exactly that configuration (provenance fields zero). -/
theorem c10_update_clears_provenance (v : Validator) (s : Sqlite.StoreState)
    (name data : String) (now : Nat) (c : Configuration) (s' : Sqlite.StoreState)
    (h : UseCase.UpdateConfiguration sqliteRepo v s name data now = (Except.ok c, s')) :
    c.rollbackFrom = 0 ∧ c.rollbackTo = 0 ∧
    UseCase.GetConfiguration sqliteRepo s' name = Except.ok c := by
  obtain ⟨row, dataOld, hrow, hdata, hfresh, hc, hs'⟩ :=
    update_ok_shape v s name data now c s' h
  subst hc
  refine ⟨rfl, rfl, ?_⟩
  have hget' : Sqlite.GetConfiguration s' name = Except.ok
      { name := name, version := row.version + 1, data := data,
        createdAt := row.createdAt, updatedAt := now,
        rollbackFrom := 0, rollbackTo := 0 } := by
    rw [hs']
    simp [Sqlite.GetConfiguration, alLookup_alUpdateRow_self, hrow, alLookup_alInsert_self]
  unfold UseCase.GetConfiguration
  rw [sqliteRepo_getConfiguration, hget']

/-- Claim C7: on a reachable state, Rollback fails with NotFound when the
configuration is absent or when no version record exists for the target
(including any target beyond the head), the store is left unchanged, and a
subsequent Get still returns the pre-call head. -/
theorem c7_rollback_missing_target_notfound (s : Sqlite.StoreState) (hreach : Reachable s)
    (name : String) (target now : Nat)
    (habs : alLookup s.configurations name = none ∨
            alLookup s.versions (name, target) = none) :
    ∃ e, UseCase.RollbackConfiguration sqliteRepo s name target now = (Except.error e, s) ∧
         e.code = ErrorCode.notFound ∧
         ∀ row, alLookup s.configurations name = some row →
           ∃ cfg, UseCase.GetConfiguration sqliteRepo s name = Except.ok cfg ∧
                  cfg.version = row.version := by
  obtain ⟨hHead, hOrphan, hPayload⟩ := reachable_inv s hreach
  rcases hconf : alLookup s.configurations name with - | row
  · refine ⟨NewNotFoundError "Configuration" name, ?_, rfl, ?_⟩
    · unfold UseCase.RollbackConfiguration
      rw [sqliteRepo_getConfiguration]
      simp [Sqlite.GetConfiguration, hconf]
    · intro row hr
      exact Option.noConfusion hr
  · have hver : alLookup s.versions (name, target) = none := by
      rcases habs with hx | hx
      · rw [hconf] at hx
        exact Option.noConfusion hx
      · exact hx
    have hdat : alLookup s.versionData (name, target) = none := by
      rcases hd : alLookup s.versionData (name, target) with - | d
      · rfl
      · have := (hPayload name target).mpr (by rw [hd]; simp)
        rw [hver] at this
        simp at this
    have hhead := hHead name row hconf
    have hvhead : (alLookup s.versions (name, row.version)).isSome :=
      (hhead.2 row.version).mpr ⟨hhead.1, le_refl _⟩
    obtain ⟨dHead, hdHead⟩ :=
      Option.isSome_iff_exists.mp ((hPayload name row.version).mp hvhead)
    have hgetok : Sqlite.GetConfiguration s name = Except.ok
        { name := name, version := row.version, data := dHead,
          createdAt := row.createdAt, updatedAt := row.updatedAt,
          rollbackFrom := row.rollbackFrom.getD 0,
          rollbackTo := row.rollbackTo.getD 0 } := by
      simp [Sqlite.GetConfiguration, hconf, hdHead]
    refine ⟨NewNotFoundError "Configuration version" name, ?_, rfl, ?_⟩
    · unfold UseCase.RollbackConfiguration
      rw [sqliteRepo_getConfiguration, sqliteRepo_getVersionData, hgetok]
      simp [Sqlite.GetVersionData, hdat]
    · intro row' hr'
      have hroweq : row = row' := by simpa using hr'
      have hget2 : UseCase.GetConfiguration sqliteRepo s name = Except.ok
          { name := name, version := row.version, data := dHead,
            createdAt := row.createdAt, updatedAt := row.updatedAt,
            rollbackFrom := row.rollbackFrom.getD 0,
            rollbackTo := row.rollbackTo.getD 0 } := by
        unfold UseCase.GetConfiguration
        rw [sqliteRepo_getConfiguration, hgetok]
      exact ⟨_, hget2, by rw [hroweq]⟩

/-- Claim C8: Rollback performs no schema validation: on a reachable state
with the configuration and the target version record present, Rollback
succeeds and restores the stored target payload even though a schema is
registered for the name and the gojsonschema engine rejects that payload. -/
theorem c8_rollback_skips_validation (s : Sqlite.StoreState) (hreach : Reachable s)
    (name : String) (target now : Nat) (row : Sqlite.ConfigRow)
    (sch targetPayload : String) (gjs : String → String → GJSResult)
    (errs : List ValidationError)
    (hrow : alLookup s.configurations name = some row)
    (hver : (alLookup s.versions (name, target)).isSome)
    (hpay : alLookup s.versionData (name, target) = some targetPayload)
    (hsch : alLookup s.schemas name = some sch)
    (hne : errs ≠ [])
    (hfail : gjs sch targetPayload = GJSResult.result errs) :
    ∃ c s', UseCase.RollbackConfiguration sqliteRepo s name target now = (Except.ok c, s') ∧
            c.data = targetPayload := by
  obtain ⟨hHead, hOrphan, hPayload⟩ := reachable_inv s hreach
  have hhead := hHead name row hrow
  have hvhead : (alLookup s.versions (name, row.version)).isSome :=
    (hhead.2 row.version).mpr ⟨hhead.1, le_refl _⟩
  obtain ⟨dHead, hdHead⟩ :=
    Option.isSome_iff_exists.mp ((hPayload name row.version).mp hvhead)
  have hfresh : alLookup s.versions (name, row.version + 1) = none := by
    rcases hx : alLookup s.versions (name, row.version + 1) with - | vr
    · rfl
    · have hcontra := (hhead.2 (row.version + 1)).mp (by rw [hx]; simp)
      omega
  have hgetok : Sqlite.GetConfiguration s name = Except.ok
      { name := name, version := row.version, data := dHead,
        createdAt := row.createdAt, updatedAt := row.updatedAt,
        rollbackFrom := row.rollbackFrom.getD 0,
        rollbackTo := row.rollbackTo.getD 0 } := by
    simp [Sqlite.GetConfiguration, hrow, hdHead]
  have hcall : UseCase.RollbackConfiguration sqliteRepo s name target now =
      (Except.ok (NewVersionFromRollback
        { name := name, version := row.version, data := dHead,
          createdAt := row.createdAt, updatedAt := row.updatedAt,
          rollbackFrom := row.rollbackFrom.getD 0,
          rollbackTo := row.rollbackTo.getD 0 } target targetPayload now),
       { s with
         configurations := alUpdateRow s.configurations name (fun r =>
           { r with version := row.version + 1, updatedAt := now,
                    rollbackFrom := some row.version, rollbackTo := some target }),
         versions := alInsert s.versions (name, row.version + 1)
           { createdAt := now, isRollback := decide (0 < row.version) },
         versionData := alInsert s.versionData (name, row.version + 1) targetPayload }) := by
    unfold UseCase.RollbackConfiguration
    rw [sqliteRepo_getConfiguration, sqliteRepo_getVersionData,
      sqliteRepo_updateConfiguration, sqliteRepo_storeVersionData, hgetok]
    simp only [Sqlite.GetVersionData, hpay]
    simp [Sqlite.UpdateConfiguration, NewVersionFromRollback, hfresh, Sqlite.StoreVersionData]
  exact ⟨_, _, hcall, rfl⟩

/-- Claim C4 (amended): when a schema is registered for the name, the data
fails validation, and the operation's preceding existence check passes
(Create: no configuration row exists; Update: the configuration is
readable), then Create and Update return the ValidationFailed error carrying
the field-level violation list, and the store is left unchanged. -/
theorem c4_amended_validation_failure_blocks_write
    (gjs : String → String → GJSResult) (compile : String → Option String)
    (s t : Sqlite.StoreState) (nameC nameU dataC dataU : String) (now1 now2 : Nat)
    (schC schU : String) (errsC errsU : List ValidationError)
    (hschC : alLookup s.schemas nameC = some schC)
    (hfailC : gjs schC dataC = GJSResult.result errsC) (hneC : errsC ≠ [])
    (hconfC : alLookup s.configurations nameC = none)
    (hschU : alLookup t.schemas nameU = some schU)
    (hfailU : gjs schU dataU = GJSResult.result errsU) (hneU : errsU ≠ [])
    (existing : Configuration)
    (hgetU : Sqlite.GetConfiguration t nameU = Except.ok existing) :
    UseCase.CreateConfiguration sqliteRepo (NewJSONSchemaValidator gjs compile)
        s nameC dataC now1 =
      (Except.error (NewValidationFailedError "JSON validation failed" errsC), s) ∧
    UseCase.UpdateConfiguration sqliteRepo (NewJSONSchemaValidator gjs compile)
        t nameU dataU now2 =
      (Except.error (NewValidationFailedError "JSON validation failed" errsU), t) := by
  constructor
  · unfold UseCase.CreateConfiguration
    rw [sqliteRepo_getConfiguration, sqliteRepo_getSchema]
    simp only [Sqlite.GetConfiguration, hconfC]
    simp only [Sqlite.GetSchema, hschC]
    simp [NewJSONSchemaValidator, JSONSchemaValidateJSON, hfailC, List.isEmpty_iff, hneC]
  · unfold UseCase.UpdateConfiguration
    rw [sqliteRepo_getConfiguration, sqliteRepo_getSchema, hgetU]
    simp only [Sqlite.GetSchema, hschU]
    simp [NewJSONSchemaValidator, JSONSchemaValidateJSON, hfailU, List.isEmpty_iff, hneU]

/-- A JSONSchemaValidator.ValidateJSON failure is always classified as
ValidationFailed or InternalError. -/
theorem validateJSON_error_code (gjs : String → String → GJSResult) (schema data : String)
    (e : AppError) (h : JSONSchemaValidateJSON gjs schema data = Except.error e) :
    e.code = ErrorCode.validationFailed ∨ e.code = ErrorCode.internalError := by
  unfold JSONSchemaValidateJSON at h
  rcases hg : gjs schema data with msg | errs
  · rw [hg] at h
    simp only [Except.error.injEq] at h
    right
    rw [← h]
    rfl
  · rw [hg] at h
    by_cases he : errs.isEmpty
    · simp [he] at h
    · simp only [he, if_neg, Bool.false_eq_true, if_false, Except.error.injEq] at h
      left
      rw [← h]
      rfl

/-- Claim C2 (amended): the use case wraps every failing configuration or
schema lookup as NotFound regardless of the underlying store failure kind;
Create failures are classified as AlreadyExists, ValidationFailed or
InternalError; Rollback failures as NotFound or InternalError. -/
theorem c2_amended_error_classification :
    (∀ s name e, UseCase.GetConfiguration sqliteRepo s name = Except.error e →
       e.code = ErrorCode.notFound) ∧
    (∀ s name e, UseCase.GetSchema sqliteRepo s name = Except.error e →
       e.code = ErrorCode.notFound) ∧
    (∀ gjs compile s name data now e s2,
       UseCase.CreateConfiguration sqliteRepo (NewJSONSchemaValidator gjs compile)
         s name data now = (Except.error e, s2) →
       e.code = ErrorCode.alreadyExists ∨ e.code = ErrorCode.validationFailed ∨
       e.code = ErrorCode.internalError) ∧
    (∀ s name target now e s2,
       UseCase.RollbackConfiguration sqliteRepo s name target now = (Except.error e, s2) →
       e.code = ErrorCode.notFound ∨ e.code = ErrorCode.internalError) := by
  refine ⟨?_, ?_, ?_, ?_⟩
  · intro s name e h
    unfold UseCase.GetConfiguration at h
    split at h
    · simp only [Except.error.injEq] at h
      rw [← h]
      rfl
    · exact Except.noConfusion h
  · intro s name e h
    unfold UseCase.GetSchema at h
    split at h
    · simp only [Except.error.injEq] at h
      rw [← h]
      rfl
    · exact Except.noConfusion h
  · intro gjs compile s name data now e s2 h
    unfold UseCase.CreateConfiguration at h
    rw [sqliteRepo_getSchema, sqliteRepo_storeVersionData] at h
    split at h
    · simp only [Prod.mk.injEq, Except.error.injEq] at h
      left
      rw [← h.1]
      rfl
    · split at h
      · rename_i e' hval
        simp only [Prod.mk.injEq, Except.error.injEq] at h
        rcases hg : Sqlite.GetSchema s name with e'' | schema
        · rw [hg] at hval
          exact Except.noConfusion hval
        · rw [hg] at hval
          rcases validateJSON_error_code gjs schema data e' hval with hc | hc
          · right
            left
            rw [← h.1]
            exact hc
          · right
            right
            rw [← h.1]
            exact hc
      · split at h
        · simp only [Prod.mk.injEq, Except.error.injEq] at h
          right
          right
          rw [← h.1]
          rfl
        · split at h
          · rename_i e'' hstore
            simp only [Sqlite.StoreVersionData] at hstore
            exact Except.noConfusion hstore
          · simp at h
  · intro s name target now e s2 h
    unfold UseCase.RollbackConfiguration at h
    rw [sqliteRepo_storeVersionData] at h
    split at h
    · simp only [Prod.mk.injEq, Except.error.injEq] at h
      left
      rw [← h.1]
      rfl
    · split at h
      · simp only [Prod.mk.injEq, Except.error.injEq] at h
        left
        rw [← h.1]
        rfl
      · split at h
        · simp only [Prod.mk.injEq, Except.error.injEq] at h
          right
          rw [← h.1]
          rfl
        · split at h
          · rename_i e'' hstore
            simp only [Sqlite.StoreVersionData] at hstore
            exact Except.noConfusion hstore
          · simp at h

/-- The SQLite repository in an environment where the separate version_data
INSERT OR REPLACE statement fails (database/sql Exec is allowed to return an
error, e.g. on an I/O failure); a single failed statement has no effect on
the store. Every other operation behaves normally. This models the storage
failure mode against which Create's atomicity is claimed. -/
def sqliteRepoStoreFail : Repo :=
  { sqliteRepo with
    storeVersionData := fun _ _ _ _ => Except.error (GoError.generic "disk I/O error") }

theorem storeFail_getConfiguration :
    sqliteRepoStoreFail.getConfiguration = Sqlite.GetConfiguration := rfl

theorem storeFail_getSchema : sqliteRepoStoreFail.getSchema = Sqlite.GetSchema := rfl

theorem storeFail_createConfiguration :
    sqliteRepoStoreFail.createConfiguration = Sqlite.CreateConfiguration := rfl

theorem storeFail_storeVersionData :
    sqliteRepoStoreFail.storeVersionData =
      fun _ _ _ _ => Except.error (GoError.generic "disk I/O error") := rfl

/-- Claim C1 (amended): the repository transaction makes the configurations
row and the version-1 metadata row atomic (a successful CreateConfiguration
contains both and never touches version_data), but the version-1 payload is
written by a separate statement after that transaction commits: if that
statement fails, Create returns InternalError and leaves the configurations
row in place with no version-1 payload written. -/
theorem c1_amended_partial_atomicity :
    (∀ s config s', Sqlite.CreateConfiguration s config = Except.ok s' →
       (alLookup s'.configurations config.name).isSome = true ∧
       (alLookup s'.versions (config.name, config.version)).isSome = true ∧
       s'.versionData = s.versionData) ∧
    (∀ (v : Validator) (s : Sqlite.StoreState) (name data : String) (now : Nat),
       alLookup s.configurations name = none →
       alLookup s.versions (name, 1) = none →
       alLookup s.schemas name = none →
       UseCase.CreateConfiguration sqliteRepoStoreFail v s name data now =
         (Except.error (NewInternalError "Failed to store version data" "disk I/O error"),
          { s with
            configurations := alInsert s.configurations name
              { version := 1, createdAt := now, updatedAt := now,
                rollbackFrom := none, rollbackTo := none },
            versions := alInsert s.versions (name, 1)
              { createdAt := now, isRollback := false } })) := by
  constructor
  · intro s config s' h
    rw [createRepo_ok_iff] at h
    obtain ⟨h1, h2, hs'⟩ := h
    subst hs'
    refine ⟨?_, ?_, rfl⟩
    · simp [alLookup_alInsert_self]
    · simp [alLookup_alInsert_self]
  · intro v s name data now h1 h2 h3
    unfold UseCase.CreateConfiguration
    rw [storeFail_getConfiguration, storeFail_getSchema, storeFail_createConfiguration,
      storeFail_storeVersionData]
    simp only [Sqlite.GetConfiguration, h1]
    simp only [Sqlite.GetSchema, h3]
    simp [Sqlite.CreateConfiguration, NewConfiguration, h1, h2, GoError.message]

/-! Concrete fixture states and engines used by counterexamples and
witnesses. -/

/-- The production JSONSchemaValidator wired over a gojsonschema engine that
accepts every document. -/
def acceptingValidator : Validator :=
  NewJSONSchemaValidator (fun _ _ => GJSResult.result []) (fun _ => none)

/-- A gojsonschema engine that rejects every document with one field-level
violation. -/
def gjsRejectAll : String → String → GJSResult :=
  fun _ _ => GJSResult.result [{ field := "k", reason := "k is required" }]

/-- The configurations row of name a after Create(a, d) at time 0. -/
def rowA1 : Sqlite.ConfigRow :=
  { version := 1, createdAt := 0, updatedAt := 0, rollbackFrom := none, rollbackTo := none }

/-- The store after a successful Create(a, d) at time 0. -/
def s_a1 : Sqlite.StoreState :=
  { configurations := [("a", rowA1)],
    versions := [(("a", 1), { createdAt := 0, isRollback := false })],
    versionData := [(("a", 1), "d")],
    schemas := [] }

theorem reach_s_a1 : Reachable s_a1 :=
  Reachable.create Sqlite.emptyState acceptingValidator "a" "d" 0
    (NewConfiguration "a" "d" 0) s_a1 Reachable.empty (by decide)

/-- s_a1 after additionally registering schema sch for name a. -/
def s_a1_sch : Sqlite.StoreState := { s_a1 with schemas := [("a", "sch")] }

theorem reach_s_a1_sch : Reachable s_a1_sch :=
  Reachable.registerSchema s_a1 acceptingValidator "a" "sch" () s_a1_sch reach_s_a1 (by decide)

/-- A store with a schema for name a but no configuration. -/
def s_schema_only : Sqlite.StoreState :=
  { configurations := [], versions := [], versionData := [], schemas := [("a", "sch")] }

/-- A store holding a configurations row for b whose head payload row is
missing from version_data: the row exists, so a failing lookup on it is not
an absence failure. (Exactly this shape is produced by the non-atomic Create
documented in the C1 counterexample.) -/
def brokenPayloadState : Sqlite.StoreState :=
  { configurations := [("b", { version := 1, createdAt := 0, updatedAt := 0,
                               rollbackFrom := none, rollbackTo := none })],
    versions := [(("b", 1), { createdAt := 0, isRollback := false })],
    versionData := [],
    schemas := [] }

/-- The state produced by the failing Create of the C1 counterexample: the
configurations and versions rows for app exist, the payload does not. -/
def createdAppState : Sqlite.StoreState :=
  { configurations := [("app", { version := 1, createdAt := 0, updatedAt := 0,
                                 rollbackFrom := none, rollbackTo := none })],
    versions := [(("app", 1), { createdAt := 0, isRollback := false })],
    versionData := [],
    schemas := [] }

/-- Claim C1, counterexample: running Create(app, d) against the SQLite store
when the separate version_data INSERT fails yields InternalError while the
configurations row for app is committed and its version-1 payload is absent:
the two writes are not atomic as a unit, and the forbidden state is reached. -/
theorem c1_counterexample_payload_write_not_atomic :
    (UseCase.CreateConfiguration sqliteRepoStoreFail acceptingValidator
        Sqlite.emptyState "app" "d" 0).1 =
      Except.error (NewInternalError "Failed to store version data" "disk I/O error") ∧
    (alLookup (UseCase.CreateConfiguration sqliteRepoStoreFail acceptingValidator
        Sqlite.emptyState "app" "d" 0).2.configurations "app").isSome = true ∧
    alLookup (UseCase.CreateConfiguration sqliteRepoStoreFail acceptingValidator
        Sqlite.emptyState "app" "d" 0).2.versionData ("app", 1) = none := by
  decide

theorem c1_amended_witness :
    ((alLookup createdAppState.configurations "app").isSome = true ∧
     (alLookup createdAppState.versions ("app", 1)).isSome = true ∧
     createdAppState.versionData = Sqlite.emptyState.versionData) ∧
    UseCase.CreateConfiguration sqliteRepoStoreFail acceptingValidator
        Sqlite.emptyState "app" "d" 0 =
      (Except.error (NewInternalError "Failed to store version data" "disk I/O error"),
       createdAppState) := by
  constructor
  · exact c1_amended_partial_atomicity.1 Sqlite.emptyState
      (NewConfiguration "app" "d" 0) createdAppState (by decide)
  · exact c1_amended_partial_atomicity.2 acceptingValidator Sqlite.emptyState
      "app" "d" 0 (by decide) (by decide) (by decide)

/-- Claim C2, counterexample: on brokenPayloadState the configurations row
for b exists, so the store failure of GetConfiguration is the raw generic
sql error, not an absence; the use case nevertheless reports NotFound. -/
theorem c2_counterexample_generic_failure_reported_notfound :
    Sqlite.GetConfiguration brokenPayloadState "b" =
      Except.error (GoError.generic "sql: no rows in result set") ∧
    (alLookup brokenPayloadState.configurations "b").isSome = true ∧
    UseCase.GetConfiguration sqliteRepo brokenPayloadState "b" =
      Except.error (NewNotFoundError "Configuration" "b") ∧
    (NewNotFoundError "Configuration" "b").code = ErrorCode.notFound := by
  decide

theorem c2_amended_witness :
    (NewNotFoundError "Configuration" "b").code = ErrorCode.notFound ∧
    (NewNotFoundError "Schema" "b").code = ErrorCode.notFound ∧
    ((NewInternalError "Failed to create configuration"
        "UNIQUE constraint failed: configurations.name").code = ErrorCode.alreadyExists ∨
     (NewInternalError "Failed to create configuration"
        "UNIQUE constraint failed: configurations.name").code = ErrorCode.validationFailed ∨
     (NewInternalError "Failed to create configuration"
        "UNIQUE constraint failed: configurations.name").code = ErrorCode.internalError) ∧
    ((NewNotFoundError "Configuration" "z").code = ErrorCode.notFound ∨
     (NewNotFoundError "Configuration" "z").code = ErrorCode.internalError) := by
  have h := c2_amended_error_classification
  refine ⟨?_, ?_, ?_, ?_⟩
  · exact h.1 brokenPayloadState "b" (NewNotFoundError "Configuration" "b") (by decide)
  · exact h.2.1 brokenPayloadState "b" (NewNotFoundError "Schema" "b") (by decide)
  · exact h.2.2.1 (fun _ _ => GJSResult.result []) (fun _ => none) brokenPayloadState
      "b" "x" 0 (NewInternalError "Failed to create configuration"
        "UNIQUE constraint failed: configurations.name") brokenPayloadState (by decide)
  · exact h.2.2.2 Sqlite.emptyState "z" 1 0 (NewNotFoundError "Configuration" "z")
      Sqlite.emptyState (by decide)

/-- Claim C4, counterexample: with schema sch registered for name a and data
bad failing validation against it, Create(a, bad) on a store where a already
exists returns AlreadyExists, not ValidationFailed: the claim as stated does
not hold for every such Create call. -/
theorem c4_counterexample_duplicate_name_preempts_validation :
    alLookup s_a1_sch.schemas "a" = some "sch" ∧
    gjsRejectAll "sch" "bad" =
      GJSResult.result [{ field := "k", reason := "k is required" }] ∧
    UseCase.CreateConfiguration sqliteRepo (NewJSONSchemaValidator gjsRejectAll (fun _ => none))
        s_a1_sch "a" "bad" 1 =
      (Except.error (NewAlreadyExistsError "Configuration" "a"), s_a1_sch) ∧
    (NewAlreadyExistsError "Configuration" "a").code ≠ ErrorCode.validationFailed := by
  decide

theorem c4_amended_witness :
    UseCase.CreateConfiguration sqliteRepo (NewJSONSchemaValidator gjsRejectAll (fun _ => none))
        s_schema_only "a" "bad" 1 =
      (Except.error (NewValidationFailedError "JSON validation failed"
        [{ field := "k", reason := "k is required" }]), s_schema_only) ∧
    UseCase.UpdateConfiguration sqliteRepo (NewJSONSchemaValidator gjsRejectAll (fun _ => none))
        s_a1_sch "a" "bad" 2 =
      (Except.error (NewValidationFailedError "JSON validation failed"
        [{ field := "k", reason := "k is required" }]), s_a1_sch) :=
  c4_amended_validation_failure_blocks_write gjsRejectAll (fun _ => none)
    s_schema_only s_a1_sch "a" "a" "bad" "bad" 1 2 "sch" "sch"
    [{ field := "k", reason := "k is required" }]
    [{ field := "k", reason := "k is required" }]
    (by decide) (by decide) (by decide) (by decide) (by decide) (by decide) (by decide)
    { name := "a", version := 1, data := "d", createdAt := 0, updatedAt := 0,
      rollbackFrom := 0, rollbackTo := 0 }
    (by decide)

/-- The configuration produced by Rollback(a, 1) at time 5 from s_a1. -/
def cfgC3 : Configuration :=
  { name := "a", version := 2, data := "d", createdAt := 0, updatedAt := 5,
    rollbackFrom := 1, rollbackTo := 1 }

/-- s_a1 after Rollback(a, 1) at time 5. -/
def s_a1_rb : Sqlite.StoreState :=
  { configurations := [("a", { version := 2, createdAt := 0, updatedAt := 5,
                               rollbackFrom := some 1, rollbackTo := some 1 })],
    versions := [(("a", 1), { createdAt := 0, isRollback := false }),
                 (("a", 2), { createdAt := 5, isRollback := true })],
    versionData := [(("a", 1), "d"), (("a", 2), "d")],
    schemas := [] }

theorem c3_witness :
    cfgC3.version = rowA1.version + 1 ∧ cfgC3.data = "d" ∧
    cfgC3.rollbackFrom = rowA1.version ∧ cfgC3.rollbackTo = 1 ∧
    alLookup s_a1_rb.versions ("a", rowA1.version + 1) =
      some { createdAt := 5, isRollback := true } := by
  have h := c3_rollback_result s_a1 reach_s_a1 "a" 1 5 rowA1 (by decide) cfgC3 s_a1_rb
    (by decide)
  exact ⟨h.1, h.2.1 "d" (by decide), h.2.2.1, h.2.2.2.1, h.2.2.2.2⟩

theorem c5_witness :
    1 ≤ rowA1.version ∧
    ((alLookup s_a1.versions ("a", 1)).isSome ↔ (1 ≤ 1 ∧ 1 ≤ rowA1.version)) ∧
    ((alLookup s_a1.versions ("a", 2)).isSome ↔ (1 ≤ 2 ∧ 2 ≤ rowA1.version)) := by
  have h := c5_head_invariant s_a1 reach_s_a1 "a" rowA1 (by decide)
  exact ⟨h.1, h.2 1, h.2 2⟩

/-- The configuration produced by Update(a, e) at time 3 from s_a1. -/
def cfgC6 : Configuration :=
  { name := "a", version := 2, data := "e", createdAt := 0, updatedAt := 3,
    rollbackFrom := 0, rollbackTo := 0 }

/-- s_a1 after Update(a, e) at time 3. -/
def s_a1_upd : Sqlite.StoreState :=
  { configurations := [("a", { version := 2, createdAt := 0, updatedAt := 3,
                               rollbackFrom := some 0, rollbackTo := some 0 })],
    versions := [(("a", 1), { createdAt := 0, isRollback := false }),
                 (("a", 2), { createdAt := 3, isRollback := false })],
    versionData := [(("a", 1), "d"), (("a", 2), "e")],
    schemas := [] }

theorem c6_witness :
    cfgC6.version = rowA1.version + 1 ∧
    cfgC6.createdAt = rowA1.createdAt ∧
    UseCase.GetConfigurationVersion sqliteRepo s_a1_upd "a" 1 =
      UseCase.GetConfigurationVersion sqliteRepo s_a1 "a" 1 := by
  have h := c6_update_result acceptingValidator s_a1 "a" "e" 3 cfgC6 s_a1_upd rowA1
    (by decide) (by decide)
  exact ⟨h.1, h.2.1, h.2.2.2 1 (by decide)⟩

theorem c7_witness :
    UseCase.RollbackConfiguration sqliteRepo s_a1 "a" 9 4 =
      (Except.error (NewNotFoundError "Configuration version" "a"), s_a1) ∧
    (NewNotFoundError "Configuration version" "a").code = ErrorCode.notFound := by
  obtain ⟨e, h1, h2, -⟩ :=
    c7_rollback_missing_target_notfound s_a1 reach_s_a1 "a" 9 4 (Or.inr (by decide))
  have hcall : UseCase.RollbackConfiguration sqliteRepo s_a1 "a" 9 4 =
      (Except.error (NewNotFoundError "Configuration version" "a"), s_a1) := by decide
  refine ⟨hcall, ?_⟩
  rw [hcall] at h1
  simp only [Prod.mk.injEq, Except.error.injEq, and_true] at h1
  rw [h1]
  exact h2

/-- The configuration produced by Rollback(a, 1) at time 7 from s_a1_sch. -/
def cfgC8 : Configuration :=
  { name := "a", version := 2, data := "d", createdAt := 0, updatedAt := 7,
    rollbackFrom := 1, rollbackTo := 1 }

/-- s_a1_sch after Rollback(a, 1) at time 7: the rollback succeeded although
schema sch is registered for a and gjsRejectAll rejects the payload. -/
def s_c8 : Sqlite.StoreState :=
  { configurations := [("a", { version := 2, createdAt := 0, updatedAt := 7,
                               rollbackFrom := some 1, rollbackTo := some 1 })],
    versions := [(("a", 1), { createdAt := 0, isRollback := false }),
                 (("a", 2), { createdAt := 7, isRollback := true })],
    versionData := [(("a", 1), "d"), (("a", 2), "d")],
    schemas := [("a", "sch")] }

theorem c8_witness :
    UseCase.RollbackConfiguration sqliteRepo s_a1_sch "a" 1 7 = (Except.ok cfgC8, s_c8) ∧
    cfgC8.data = "d" := by
  obtain ⟨c, s', h1, h2⟩ := c8_rollback_skips_validation s_a1_sch reach_s_a1_sch "a" 1 7
    rowA1 "sch" "d" gjsRejectAll [{ field := "k", reason := "k is required" }]
    (by decide) (by decide) (by decide) (by decide) (by decide) (by decide)
  have hcall : UseCase.RollbackConfiguration sqliteRepo s_a1_sch "a" 1 7 =
      (Except.ok cfgC8, s_c8) := by decide
  exact ⟨hcall, rfl⟩

theorem c9_witness :
    (NewConfiguration "a" "d" 0).version = 1 ∧
    (NewConfiguration "a" "d" 0).createdAt = (NewConfiguration "a" "d" 0).updatedAt ∧
    UseCase.GetConfigurationVersion sqliteRepo s_a1 "a" 1 =
      Except.ok { name := "a", version := 1, data := "d", createdAt := 0, updatedAt := 0,
                  rollbackFrom := 0, rollbackTo := 0 } :=
  c9_create_round_trip acceptingValidator Sqlite.emptyState "a" "d" 0
    (NewConfiguration "a" "d" 0) s_a1 (by decide)

/-- The configuration produced by Update(a, f) at time 9 from s_a1_rb (whose
head carried rollback provenance). -/
def cfgC10 : Configuration :=
  { name := "a", version := 3, data := "f", createdAt := 0, updatedAt := 9,
    rollbackFrom := 0, rollbackTo := 0 }

/-- s_a1_rb after Update(a, f) at time 9. -/
def s_c10 : Sqlite.StoreState :=
  { configurations := [("a", { version := 3, createdAt := 0, updatedAt := 9,
                               rollbackFrom := some 0, rollbackTo := some 0 })],
    versions := [(("a", 1), { createdAt := 0, isRollback := false }),
                 (("a", 2), { createdAt := 5, isRollback := true }),
                 (("a", 3), { createdAt := 9, isRollback := false })],
    versionData := [(("a", 1), "d"), (("a", 2), "d"), (("a", 3), "f")],
    schemas := [] }

theorem c10_witness :
    cfgC10.rollbackFrom = 0 ∧ cfgC10.rollbackTo = 0 ∧
    UseCase.GetConfiguration sqliteRepo s_c10 "a" = Except.ok cfgC10 :=
  c10_update_clears_provenance acceptingValidator s_a1_rb "a" "f" 9 cfgC10 s_c10 (by decide)

end ConfigService
